import Mathlib

/-!
# Dreamhouse scoring and ranking core: a shallow embedding

This file embeds the scoring/ranking subsystem of the Dreamhouse repository
in Lean 4 and proves properties of it.

Embedding conventions:
* JavaScript numbers are modelled as `ℚ` (exact rational arithmetic), except
  geographic coordinates and everything derived from the trigonometric
  Haversine distance, which are modelled as `ℝ`.
* Nullable fields (`T | null`) are modelled as `Option`.
* JavaScript truthiness guards (`!price`, `!sqft`, `loc.radiusMiles || 2`,
  `!property.architecturalStyle`) are modelled explicitly: `none` and the
  zero / empty-string member of the type are falsy.
* `PermitRecord.date` is a date string in the source, consumed only through
  `new Date(date).getFullYear()`; the embedding stores that year directly in
  the field `dateYear`.  The module-level `CURRENT_YEAR` (the ambient clock)
  becomes an explicit `currentYear : ℤ` parameter of `computeTransactScore`
  and `searchProperties`.
* Human-readable `reason` / `signals` / `overallReason` strings (pure
  presentation built with `toFixed` number formatting) are not modelled;
  every numeric score, level and flag is.
* Fields of the source `Property` interface that no scoring code reads
  (photo URLs, MLS number, timestamps, data sources, owner mailing address)
  are omitted from the record.
-/

/-! ## Data model (src/unnamed/part_008) -/

inductive PropertyType where
  | single_family
  | condo
  | townhouse
  | multi_family
  | land
  | other
deriving DecidableEq

inductive ListingStatus where
  | on_market
  | off_market
  | recently_sold
deriving DecidableEq

inductive TaxStatus where
  | current
  | delinquent
  | unknown
deriving DecidableEq

inductive TransactLevel where
  | low
  | medium
  | high
deriving DecidableEq

/-- Permit record; `dateYear` models `new Date(permit.date).getFullYear()`. -/
structure PermitRecord where
  type : String
  dateYear : ℤ
  description : String
  value : Option ℚ

/-- A physical residential parcel (`Property` in src/unnamed/part_008). -/
structure Property where
  id : String
  marketId : String
  parcelId : Option String
  address : String
  city : String
  state : String
  zip : String
  lat : ℝ
  lng : ℝ
  bedrooms : ℚ
  bathrooms : ℚ
  sqft : ℚ
  lotSqft : Option ℚ
  yearBuilt : Option ℤ
  propertyType : PropertyType
  architecturalStyle : Option String
  features : List String
  lastSaleDate : Option String
  lastSalePrice : Option ℚ
  estimatedValue : Option ℚ
  ownerName : Option String
  absenteeOwner : Bool
  ownershipYears : Option ℚ
  equityEstimate : Option ℚ
  taxStatus : TaxStatus
  permitHistory : List PermitRecord
  listingStatus : ListingStatus
  listingPrice : Option ℚ

/-- A `{min, max}` range with nullable bounds. -/
structure NumRange where
  min : Option ℚ
  max : Option ℚ

/-- A target location of a parsed intent. -/
structure LocationTarget where
  name : String
  lat : ℝ
  lng : ℝ
  radiusMiles : ℝ

/-- The buyer's structured preference (`ParsedIntent` in src/unnamed/part_008). -/
structure ParsedIntent where
  styles : List String
  features : List String
  budget : NumRange
  locations : List LocationTarget
  beds : NumRange
  baths : NumRange
  sqft : NumRange
  propertyTypes : List PropertyType
  lifestyleTags : List String
  summary : String

/-! ## Style similarity resolver (src/unnamed/part_006) -/

/-- The static architectural style adjacency table `STYLE_SIMILARITY`. -/
def STYLE_SIMILARITY : List (String × List String) := [
  ("mid-century modern",
    ["modern", "contemporary", "atomic ranch", "retro modern", "post and beam"]),
  ("modern",
    ["mid-century modern", "contemporary", "minimalist", "international style"]),
  ("contemporary",
    ["modern", "mid-century modern", "northwest contemporary", "minimalist"]),
  ("northwest contemporary",
    ["contemporary", "modern", "pacific northwest", "northwest lodge"]),
  ("craftsman",
    ["bungalow", "arts and crafts", "american foursquare", "seattle box"]),
  ("bungalow", ["craftsman", "arts and crafts", "cottage"]),
  ("arts and crafts", ["craftsman", "bungalow", "mission"]),
  ("colonial",
    ["dutch colonial", "georgian", "federal", "cape cod", "traditional"]),
  ("dutch colonial", ["colonial", "traditional", "cape cod"]),
  ("tudor", ["english cottage", "storybook", "traditional", "european"]),
  ("victorian", ["queen anne", "italianate", "painted lady", "ornate"]),
  ("queen anne", ["victorian", "painted lady", "italianate"]),
  ("farmhouse", ["modern farmhouse", "country", "ranch", "rural"]),
  ("modern farmhouse", ["farmhouse", "contemporary", "transitional"]),
  ("ranch", ["rambler", "split level", "mid-century modern", "atomic ranch"]),
  ("split level", ["ranch", "rambler", "tri-level"]),
  ("cape cod", ["colonial", "traditional", "cottage", "new england"]),
  ("cottage", ["bungalow", "cape cod", "english cottage", "storybook"]),
  ("english cottage", ["cottage", "tudor", "storybook"]),
  ("mediterranean", ["spanish", "mission", "italian villa", "tuscan"]),
  ("spanish", ["mediterranean", "mission", "spanish colonial"]),
  ("mission", ["spanish", "mediterranean", "arts and crafts"]),
  ("pacific northwest",
    ["northwest contemporary", "northwest lodge", "contemporary"]),
  ("northwest lodge", ["pacific northwest", "northwest contemporary", "cabin"]),
  ("minimalist", ["modern", "contemporary", "scandinavian"]),
  ("scandinavian", ["minimalist", "modern", "nordic"]),
  ("transitional", ["traditional", "contemporary", "modern farmhouse"]),
  ("traditional", ["colonial", "transitional", "cape cod", "georgian"]),
  ("seattle box", ["craftsman", "american foursquare"]),
  ("american foursquare", ["craftsman", "seattle box", "traditional"]),
  ("cabin", ["northwest lodge", "rustic", "log home"]),
  ("rustic", ["cabin", "log home", "farmhouse"]),
  ("townhouse", ["urban", "row house"]),
  ("industrial", ["loft", "modern", "urban"]),
  ("loft", ["industrial", "urban", "modern"])]

/-- `STYLE_SIMILARITY[key]` record lookup (returns `none` when absent). -/
def styleLookup (key : String) : Option (List String) :=
  (STYLE_SIMILARITY.find? (fun e => e.1 == key)).map (fun e => e.2)

/-- Collapse every maximal run of whitespace into a single space
(the `replace(/\s+/g, " ")` step of `normalizeStyle`). -/
def collapseWs : List Char → List Char
  | [] => []
  | c :: rest =>
    if c.isWhitespace then
      ' ' :: collapseWs (rest.dropWhile Char.isWhitespace)
    else
      c :: collapseWs rest
termination_by l => l.length
decreasing_by
  · exact Nat.lt_succ_of_le (List.dropWhile_sublist _).length_le
  · exact Nat.lt_succ_self _

/-- `normalizeStyle`: trim, lowercase, collapse internal whitespace. -/
def normalizeStyle (style : String) : String :=
  String.mk (collapseWs style.trim.toLower.data)

/-- `styleSimilarity`: 1.0 exact, 0.5 related (either direction), 0 otherwise. -/
def styleSimilarity (styleA styleB : String) : ℚ :=
  let a := normalizeStyle styleA
  let b := normalizeStyle styleB
  if a = b then 1
  else
    let relatedToA := (styleLookup a).getD []
    if b ∈ relatedToA then 0.5
    else
      let relatedToB := (styleLookup b).getD []
      if a ∈ relatedToB then 0.5
      else 0

/-- The loop body of `bestStyleMatch`, with its short-circuit at 1.0. -/
def bestStyleLoop (propertyStyle : String) : List String → ℚ → ℚ
  | [], best => best
  | desired :: rest, best =>
    let score := styleSimilarity desired propertyStyle
    let best2 := if best < score then score else best
    if best2 = 1 then best2 else bestStyleLoop propertyStyle rest best2

/-- `bestStyleMatch`: best similarity of a property style against desired styles. -/
def bestStyleMatch (desiredStyles : List String) (propertyStyle : Option String) : ℚ :=
  match propertyStyle with
  | none => 0
  | some ps =>
    if ps = "" then 0
    else if desiredStyles.isEmpty then 0
    else bestStyleLoop ps desiredStyles 0

/-! ## Match scorer: weights (src/unnamed/part_005, lines 27-92) -/

/-- The six scoring factors. -/
inductive Factor where
  | location
  | budget
  | style
  | features
  | bedsBaths
  | sqft
deriving DecidableEq, Fintype

/-- The key order of the `BASE_WEIGHTS` record literal. -/
def allFactors : List Factor :=
  [Factor.location, Factor.budget, Factor.style,
   Factor.features, Factor.bedsBaths, Factor.sqft]

/-- `BASE_WEIGHTS`. -/
def BASE_WEIGHTS : Factor → ℚ
  | Factor.location => 0.25
  | Factor.budget => 0.2
  | Factor.style => 0.2
  | Factor.features => 0.15
  | Factor.bedsBaths => 0.1
  | Factor.sqft => 0.1

/-- `getSpecifiedFactors`: which factors the intent actually expresses. -/
def getSpecifiedFactors (intent : ParsedIntent) : Factor → Bool
  | Factor.location => !intent.locations.isEmpty
  | Factor.budget => intent.budget.min.isSome || intent.budget.max.isSome
  | Factor.style => !intent.styles.isEmpty
  | Factor.features => !intent.features.isEmpty
  | Factor.bedsBaths =>
    intent.beds.min.isSome || intent.beds.max.isSome ||
    intent.baths.min.isSome || intent.baths.max.isSome
  | Factor.sqft => intent.sqft.min.isSome || intent.sqft.max.isSome

/-- The `specifiedKeys` list of `getRedistributedWeights`. -/
def specifiedKeys (intent : ParsedIntent) : List Factor :=
  allFactors.filter (getSpecifiedFactors intent)

/-- The `totalSpecifiedWeight` accumulator of `getRedistributedWeights`. -/
def totalSpecifiedWeight (intent : ParsedIntent) : ℚ :=
  ((specifiedKeys intent).map BASE_WEIGHTS).sum

/-- `getRedistributedWeights`: zero out unspecified factors and rescale the
specified ones to sum to 1; fall back to `BASE_WEIGHTS` when nothing is
specified. -/
def getRedistributedWeights (intent : ParsedIntent) : Factor → ℚ :=
  if (specifiedKeys intent).isEmpty then BASE_WEIGHTS
  else fun key =>
    if getSpecifiedFactors intent key then
      BASE_WEIGHTS key / totalSpecifiedWeight intent
    else 0

/-- Sum of a weight vector over the six factors. -/
def weightsSum (w : Factor → ℚ) : ℚ :=
  w Factor.location + w Factor.budget + w Factor.style +
  w Factor.features + w Factor.bedsBaths + w Factor.sqft

/-! ## Sub-scorers without geographic input (src/unnamed/part_005) -/

/-- `scoreBudget` (lines 142-184). -/
def scoreBudget (property : Property) (intent : ParsedIntent) : ℚ :=
  let price : Option ℚ :=
    match property.listingPrice with
    | some v => some v
    | none => property.estimatedValue
  match price with
  | none => 50
  | some pr =>
    if pr = 0 then 50
    else if intent.budget.min = none ∧ intent.budget.max = none then 50
    else
      let score : ℚ := 100
      let score :=
        match intent.budget.max with
        | some mx =>
          if mx < pr then
            let overage := (pr - mx) / mx
            max 0 (100 * (1 - overage))
          else score
        | none => score
      let score :=
        match intent.budget.min with
        | some mn =>
          if pr < mn then
            let under := (mn - pr) / mn
            min score (max 0 (100 * (1 - under)))
          else score
        | none => score
      score

/-- `scoreStyle` (lines 186-217). -/
def scoreStyle (property : Property) (intent : ParsedIntent) : ℚ :=
  if intent.styles.isEmpty then 50
  else
    match property.architecturalStyle with
    | none => 25
    | some st =>
      if st = "" then 25
      else
        let similarity := bestStyleMatch intent.styles (some st)
        if similarity = 1 then 100
        else if 0.5 ≤ similarity then 50
        else 0

/-- JavaScript `a.includes(b)` substring check. -/
def strIncludes (s sub : String) : Bool :=
  (List.range (s.data.length + 1)).any (fun k => sub.data.isPrefixOf (s.data.drop k))

/-- `scoreFeatures` (lines 219-252). -/
def scoreFeatures (property : Property) (intent : ParsedIntent) : ℚ :=
  if intent.features.isEmpty then 50
  else
    let propertyFeatures := property.features.map normalizeStyle
    let matchCount :=
      (intent.features.filter (fun desired =>
        let normalized := normalizeStyle desired
        propertyFeatures.any (fun pf =>
          strIncludes pf normalized || strIncludes normalized pf))).length
    ((matchCount : ℚ) / (intent.features.length : ℚ)) * 100

/-- `scoreBedsBaths` (lines 254-322). -/
def scoreBedsBaths (property : Property) (intent : ParsedIntent) : ℚ :=
  let bedsSpecified := intent.beds.min.isSome || intent.beds.max.isSome
  let bathsSpecified := intent.baths.min.isSome || intent.baths.max.isSome
  if !bedsSpecified && !bathsSpecified then 50
  else
    let bedScore : ℚ :=
      if bedsSpecified then
        let targetBeds := intent.beds.min.getD (intent.beds.max.getD property.bedrooms)
        let diff := |property.bedrooms - targetBeds|
        let base : ℚ :=
          if diff = 0 then 100
          else if diff ≤ 1 then 100
          else if diff ≤ 2 then 50
          else 0
        match intent.beds.min with
        | some mn =>
          if property.bedrooms < mn then
            let belowDiff := mn - property.bedrooms
            if 2 < belowDiff then 0
            else if 1 < belowDiff then min base 50
            else base
          else base
        | none => base
      else 50
    let bathScore : ℚ :=
      if bathsSpecified then
        let targetBaths := intent.baths.min.getD (intent.baths.max.getD property.bathrooms)
        let diff := |property.bathrooms - targetBaths|
        if diff = 0 then 100
        else if diff ≤ 1 then 100
        else if diff ≤ 2 then 50
        else 0
      else 50
    (bedScore + bathScore) / 2

/-- `scoreSqft` (lines 324-377).  The `none, none` arm is unreachable: that
case already returned 50 at the top guard. -/
def scoreSqft (property : Property) (intent : ParsedIntent) : ℚ :=
  if intent.sqft.min = none ∧ intent.sqft.max = none then 50
  else
    let sqft := property.sqft
    if sqft = 0 then 50
    else
      match intent.sqft.min, intent.sqft.max with
      | some mn, some mx =>
        if mn ≤ sqft ∧ sqft ≤ mx then 100
        else if sqft < mn then
          let deficit := (mn - sqft) / mn
          max 0 (100 * (1 - deficit))
        else
          let excess := (sqft - mx) / mx
          max 0 (100 * (1 - excess))
      | some mn, none =>
        if sqft < mn then
          let deficit := (mn - sqft) / mn
          max 0 (100 * (1 - deficit))
        else 100
      | none, some mx =>
        if mx < sqft then
          let excess := (sqft - mx) / mx
          max 0 (100 * (1 - excess))
        else 100
      | none, none => 50

/-! ## Haversine distance (src/src/lib/scoring/haversine.ts) -/

/-- `EARTH_RADIUS_MILES`. -/
noncomputable def EARTH_RADIUS_MILES : ℝ := 3958.8

/-- `toRadians`. -/
noncomputable def toRadians (degrees : ℝ) : ℝ := degrees * (Real.pi / 180)

/-- `Math.atan2(y, x)`. -/
noncomputable def atan2 (y x : ℝ) : ℝ :=
  if 0 < x then Real.arctan (y / x)
  else if x < 0 then
    (if 0 ≤ y then Real.arctan (y / x) + Real.pi
     else Real.arctan (y / x) - Real.pi)
  else
    (if 0 < y then Real.pi / 2
     else if y < 0 then -(Real.pi / 2)
     else 0)

/-- `haversineDistance`: great-circle distance in miles. -/
noncomputable def haversineDistance (lat1 lng1 lat2 lng2 : ℝ) : ℝ :=
  let dLat := toRadians (lat2 - lat1)
  let dLng := toRadians (lng2 - lng1)
  let a :=
    Real.sin (dLat / 2) * Real.sin (dLat / 2) +
    Real.cos (toRadians lat1) * Real.cos (toRadians lat2) *
      Real.sin (dLng / 2) * Real.sin (dLng / 2)
  let c := 2 * atan2 (Real.sqrt a) (Real.sqrt (1 - a))
  EARTH_RADIUS_MILES * c

/-! ## Location sub-scorer (src/unnamed/part_005, lines 98-140) -/

/-- Score of one target location: the body of the `for` loop of
`scoreLocation` computing `locScore` from the distance and radius
(`loc.radiusMiles || 2` treats a falsy radius as the default 2). -/
noncomputable def locTargetScore (property : Property) (loc : LocationTarget) : ℝ :=
  let dist := haversineDistance property.lat property.lng loc.lat loc.lng
  let radius := if loc.radiusMiles = 0 then 2 else loc.radiusMiles
  if dist ≤ 0.1 then 100
  else if dist ≤ radius then max 0 (100 - dist / radius * 40)
  else if dist ≤ radius * 2 then max 0 (60 * (1 - (dist - radius) / radius))
  else 0

/-- `scoreLocation`: best score across all target locations (the source also
tracks the best location's name for the reason string; the fold keeps that
pair). -/
noncomputable def scoreLocation (property : Property) (intent : ParsedIntent) : ℝ :=
  if intent.locations.isEmpty then 50
  else
    (intent.locations.foldl
      (fun best loc =>
        let locScore := locTargetScore property loc
        if best.1 < locScore then (locScore, loc.name) else best)
      ((0 : ℝ), "")).1

/-! ## Match scorer aggregation (src/unnamed/part_005, lines 383-468) -/

/-- One named sub-score with its `matched` flag (reason strings are
presentation and not modelled). -/
structure MatchFactor where
  name : String
  score : ℝ
  matched : Bool

/-- Result of `computeMatchScore` (the overall reason string is presentation
and not modelled). -/
structure MatchResult where
  score : ℝ
  factors : List MatchFactor

/-- `computeMatchScore`: weighted aggregation of the six sub-scores, rounded
to two decimals. -/
noncomputable def computeMatchScore (property : Property) (intent : ParsedIntent) :
    MatchResult :=
  let weights := getRedistributedWeights intent
  let locationScore : ℝ := scoreLocation property intent
  let budgetScore : ℚ := scoreBudget property intent
  let styleScore : ℚ := scoreStyle property intent
  let featuresScore : ℚ := scoreFeatures property intent
  let bedsBathsScore : ℚ := scoreBedsBaths property intent
  let sqftScore : ℚ := scoreSqft property intent
  let factors : List MatchFactor := [
    ⟨"Location", locationScore,
      decide (0 < weights Factor.location) && decide ((50 : ℝ) ≤ locationScore)⟩,
    ⟨"Budget", (budgetScore : ℝ),
      decide (0 < weights Factor.budget) && decide ((50 : ℚ) ≤ budgetScore)⟩,
    ⟨"Style", (styleScore : ℝ),
      decide (0 < weights Factor.style) && decide ((50 : ℚ) ≤ styleScore)⟩,
    ⟨"Features", (featuresScore : ℝ),
      decide (0 < weights Factor.features) && decide ((50 : ℚ) ≤ featuresScore)⟩,
    ⟨"Beds/Baths", (bedsBathsScore : ℝ),
      decide (0 < weights Factor.bedsBaths) && decide ((50 : ℚ) ≤ bedsBathsScore)⟩,
    ⟨"Sqft", (sqftScore : ℝ),
      decide (0 < weights Factor.sqft) && decide ((50 : ℚ) ≤ sqftScore)⟩]
  let overallScore : ℝ :=
    locationScore * (weights Factor.location : ℝ) +
    (budgetScore : ℝ) * (weights Factor.budget : ℝ) +
    (styleScore : ℝ) * (weights Factor.style : ℝ) +
    (featuresScore : ℝ) * (weights Factor.features : ℝ) +
    (bedsBathsScore : ℝ) * (weights Factor.bedsBaths : ℝ) +
    (sqftScore : ℝ) * (weights Factor.sqft : ℝ)
  { score := (round (overallScore * 100) : ℝ) / 100
    factors := factors }

/-! ## Transact likelihood scorer (src/src/lib/scoring/transactScore.ts) -/

/-- Result of `computeTransactScore` (signal strings are presentation and
not modelled). -/
structure TransactResult where
  score : ℚ
  level : TransactLevel

/-- `computeTransactScore`: additive point system capped at 100, with the
module-level `CURRENT_YEAR` passed explicitly. -/
def computeTransactScore (currentYear : ℤ) (property : Property)
    (recentNearbySales : Bool) : TransactResult :=
  let score : ℚ := 0
  let score : ℚ :=
    match property.ownershipYears with
    | some years => if 10 < years then score + 20 + (if 15 < years then (10 : ℚ) else 0) else score
    | none => score
  let score : ℚ := if property.absenteeOwner then score + 15 else score
  let score : ℚ :=
    match property.equityEstimate with
    | some equity => if 50 < equity then score + 10 else score
    | none => score
  let score : ℚ := if property.taxStatus = TaxStatus.delinquent then score + 15 else score
  let score : ℚ := if recentNearbySales then score + 5 else score
  let homeAge : Option ℤ :=
    match property.yearBuilt with
    | some yb => if yb = 0 then none else some (currentYear - yb)
    | none => none
  let hasRecentPermits :=
    property.permitHistory.any (fun permit => currentYear - permit.dateYear ≤ 5)
  let score : ℚ :=
    match homeAge with
    | some age => if ¬hasRecentPermits ∧ 30 < age then score + 10 else score
    | none => score
  let score : ℚ := if property.listingStatus = ListingStatus.off_market then score + 5 else score
  let score : ℚ := min 100 score
  let level :=
    if 61 ≤ score then TransactLevel.high
    else if 31 ≤ score then TransactLevel.medium
    else TransactLevel.low
  { score := score, level := level }

/-! ## Ranking and pagination service (src/unnamed/part_003, lines 206-275) -/

/-- `MIN_MATCH_SCORE`: minimum match score to include in results. -/
noncomputable def MIN_MATCH_SCORE : ℝ := 25

/-- `PAGE_SIZE`: results per page. -/
def PAGE_SIZE : ℕ := 25

/-- `transactToNumeric`: numeric sort value of a transact level.  In the
source the argument is a plain string and a `default` case returns 0; that
case is unreachable for values of the `TransactLevel` union. -/
def transactToNumeric : TransactLevel → ℚ
  | TransactLevel.high => 100
  | TransactLevel.medium => 50
  | TransactLevel.low => 20

/-- One scored search result (the match explanation is carried by
`computeMatchScore` and omitted here). -/
structure SearchResult where
  property : Property
  matchScore : ℝ
  transactScore : TransactLevel

/-- The paged return value of `searchProperties`. -/
structure SearchPage where
  results : List SearchResult
  total : ℕ
  page : ℕ
  pageSize : ℕ

/-- The weighted composite ranking key `0.7 * matchScore + 0.3 * transactNumeric`
of the sort comparator in `searchProperties`. -/
noncomputable def sortKey (r : SearchResult) : ℝ :=
  0.7 * r.matchScore + 0.3 * (transactToNumeric r.transactScore : ℝ)

/-- The descending order the comparator
`(a, b) => weightedB - weightedA` sorts by. -/
noncomputable def searchCmp (a b : SearchResult) : Prop :=
  sortKey b ≤ sortKey a

noncomputable instance : DecidableRel searchCmp :=
  fun a b => inferInstanceAs (Decidable (sortKey b ≤ sortKey a))

instance : IsTotal SearchResult searchCmp :=
  ⟨fun a b => le_total (sortKey b) (sortKey a)⟩

instance : IsTrans SearchResult searchCmp :=
  ⟨fun _ _ _ hab hbc => le_trans hbc hab⟩

/-- `searchProperties` (scoring, filtering, sorting, pagination): the property
collection is passed in place of the `getProperties(marketId)` fetch, the
ambient clock year is explicit, and the `sort` call is modelled by insertion
sort with the comparator's descending order. -/
noncomputable def searchProperties (currentYear : ℤ) (intent : ParsedIntent)
    (properties : List Property) (page : ℕ) : SearchPage :=
  let scored : List SearchResult := properties.map (fun property =>
    { property := property
      matchScore := (computeMatchScore property intent).score
      transactScore := (computeTransactScore currentYear property false).level })
  let filtered := scored.filter (fun r => decide (MIN_MATCH_SCORE ≤ r.matchScore))
  let sorted := List.insertionSort searchCmp filtered
  let total := filtered.length
  let offset := (page - 1) * PAGE_SIZE
  let results := (sorted.drop offset).take PAGE_SIZE
  { results := results, total := total, page := page, pageSize := PAGE_SIZE }

/-! ## Ingestion filter (src/unnamed/part_004, lines 496-508) -/

/-- The record filter of `ingestKingCountyProperties` step 3: drop transformed
records with no usable address or coordinates. -/
noncomputable def ingestionFilter (transformed : List Property) : List Property :=
  transformed.filter (fun prop =>
    decide (prop.address ≠ "Unknown" ∧ prop.lat ≠ 0 ∧ prop.lng ≠ 0))

/-! ## Shared helper lemmas about neutral branches -/

lemma scoreLocation_no_pref (property : Property) (intent : ParsedIntent)
    (h : intent.locations = []) : scoreLocation property intent = 50 := by
  simp [scoreLocation, h]

lemma scoreBudget_no_budget (property : Property) (intent : ParsedIntent)
    (hmin : intent.budget.min = none) (hmax : intent.budget.max = none) :
    scoreBudget property intent = 50 := by
  simp only [scoreBudget]
  cases property.listingPrice <;> cases property.estimatedValue <;>
    simp [hmin, hmax]

lemma scoreBudget_no_price (property : Property) (intent : ParsedIntent)
    (hlp : property.listingPrice = none ∨ property.listingPrice = some 0)
    (hev : property.estimatedValue = none ∨ property.estimatedValue = some 0) :
    scoreBudget property intent = 50 := by
  simp only [scoreBudget]
  rcases hlp with h | h <;> rcases hev with h2 | h2 <;> simp [h, h2]

lemma scoreStyle_no_pref (property : Property) (intent : ParsedIntent)
    (h : intent.styles = []) : scoreStyle property intent = 50 := by
  simp [scoreStyle, h]

lemma scoreStyle_unknown (property : Property) (intent : ParsedIntent)
    (h : property.architecturalStyle = none) (hs : ¬intent.styles.isEmpty) :
    scoreStyle property intent = 25 := by
  simp [scoreStyle, h, hs]

lemma scoreFeatures_no_pref (property : Property) (intent : ParsedIntent)
    (h : intent.features = []) : scoreFeatures property intent = 50 := by
  simp [scoreFeatures, h]

lemma scoreBedsBaths_no_pref (property : Property) (intent : ParsedIntent)
    (h1 : intent.beds.min = none) (h2 : intent.beds.max = none)
    (h3 : intent.baths.min = none) (h4 : intent.baths.max = none) :
    scoreBedsBaths property intent = 50 := by
  simp [scoreBedsBaths, h1, h2, h3, h4]

lemma scoreSqft_no_pref (property : Property) (intent : ParsedIntent)
    (h1 : intent.sqft.min = none) (h2 : intent.sqft.max = none) :
    scoreSqft property intent = 50 := by
  simp [scoreSqft, h1, h2]

lemma scoreSqft_unknown (property : Property) (intent : ParsedIntent)
    (h : property.sqft = 0) (hs : ¬(intent.sqft.min = none ∧ intent.sqft.max = none)) :
    scoreSqft property intent = 50 := by
  simp [scoreSqft, h, hs]

/-- With an all-empty intent no factor is specified. -/
lemma getSpecifiedFactors_empty (intent : ParsedIntent)
    (hloc : intent.locations = []) (hbmin : intent.budget.min = none)
    (hbmax : intent.budget.max = none) (hsty : intent.styles = [])
    (hfeat : intent.features = []) (hbdmin : intent.beds.min = none)
    (hbdmax : intent.beds.max = none) (hbamin : intent.baths.min = none)
    (hbamax : intent.baths.max = none) (hsqmin : intent.sqft.min = none)
    (hsqmax : intent.sqft.max = none) :
    ∀ f, getSpecifiedFactors intent f = false := by
  intro f
  cases f <;>
    simp [getSpecifiedFactors, hloc, hbmin, hbmax, hsty, hfeat,
      hbdmin, hbdmax, hbamin, hbamax, hsqmin, hsqmax]

/-- With no specified factor the weights fall back to `BASE_WEIGHTS`. -/
lemma getRedistributedWeights_empty (intent : ParsedIntent)
    (h : ∀ f, getSpecifiedFactors intent f = false) :
    getRedistributedWeights intent = BASE_WEIGHTS := by
  have hkeys : specifiedKeys intent = [] := by
    simp [specifiedKeys, allFactors, List.filter, h]
  simp [getRedistributedWeights, hkeys]

/-- All-empty intent: every sub-score is 50 and the match score is exactly 50. -/
lemma computeMatchScore_all_empty (property : Property) (intent : ParsedIntent)
    (hloc : intent.locations = []) (hbmin : intent.budget.min = none)
    (hbmax : intent.budget.max = none) (hsty : intent.styles = [])
    (hfeat : intent.features = []) (hbdmin : intent.beds.min = none)
    (hbdmax : intent.beds.max = none) (hbamin : intent.baths.min = none)
    (hbamax : intent.baths.max = none) (hsqmin : intent.sqft.min = none)
    (hsqmax : intent.sqft.max = none) :
    (computeMatchScore property intent).score = 50 := by
  have hw := getRedistributedWeights_empty intent
    (getSpecifiedFactors_empty intent hloc hbmin hbmax hsty hfeat
      hbdmin hbdmax hbamin hbamax hsqmin hsqmax)
  simp only [computeMatchScore,
    scoreLocation_no_pref property intent hloc,
    scoreBudget_no_budget property intent hbmin hbmax,
    scoreStyle_no_pref property intent hsty,
    scoreFeatures_no_pref property intent hfeat,
    scoreBedsBaths_no_pref property intent hbdmin hbdmax hbamin hbamax,
    scoreSqft_no_pref property intent hsqmin hsqmax, hw]
  have h5 : ((50 : ℝ) * (BASE_WEIGHTS Factor.location : ℝ) +
      ((50 : ℚ) : ℝ) * (BASE_WEIGHTS Factor.budget : ℝ) +
      ((50 : ℚ) : ℝ) * (BASE_WEIGHTS Factor.style : ℝ) +
      ((50 : ℚ) : ℝ) * (BASE_WEIGHTS Factor.features : ℝ) +
      ((50 : ℚ) : ℝ) * (BASE_WEIGHTS Factor.bedsBaths : ℝ) +
      ((50 : ℚ) : ℝ) * (BASE_WEIGHTS Factor.sqft : ℝ)) * 100 = ((5000 : ℤ) : ℝ) := by
    simp [BASE_WEIGHTS]
    norm_num
  rw [h5, round_intCast]
  norm_num

/-! ## Concrete sample inputs used by witnesses -/

/-- An intent with every preference field empty or null. -/
def emptyIntent : ParsedIntent :=
  { styles := [], features := [], budget := ⟨none, none⟩, locations := [],
    beds := ⟨none, none⟩, baths := ⟨none, none⟩, sqft := ⟨none, none⟩,
    propertyTypes := [], lifestyleTags := [], summary := "" }

/-- A concrete, fully-populated property record. -/
def sampleProperty : Property :=
  { id := "p1", marketId := "seattle", parcelId := none, address := "1 Main St",
    city := "Seattle", state := "WA", zip := "98101", lat := 47.6, lng := -122.3,
    bedrooms := 3, bathrooms := 2, sqft := 1800, lotSqft := none,
    yearBuilt := some 1985, propertyType := PropertyType.single_family,
    architecturalStyle := some "Craftsman", features := ["garage", "view"],
    lastSaleDate := none, lastSalePrice := none, estimatedValue := some 800000,
    ownerName := none, absenteeOwner := false, ownershipYears := some 20,
    equityEstimate := none, taxStatus := TaxStatus.current, permitHistory := [],
    listingStatus := ListingStatus.on_market, listingPrice := none }

/-! ## Claim C4 -/

/-- C4: for every property, an intent with all preference fields empty or null
yields a match score of exactly 50: every sub-score is the neutral 50 and the
aggregation uses the unscaled base weights, which sum to 1. -/
theorem C4_empty_intent_scores_fifty (property : Property) (intent : ParsedIntent)
    (hloc : intent.locations = []) (hbmin : intent.budget.min = none)
    (hbmax : intent.budget.max = none) (hsty : intent.styles = [])
    (hfeat : intent.features = []) (hbdmin : intent.beds.min = none)
    (hbdmax : intent.beds.max = none) (hbamin : intent.baths.min = none)
    (hbamax : intent.baths.max = none) (hsqmin : intent.sqft.min = none)
    (hsqmax : intent.sqft.max = none) :
    (computeMatchScore property intent).score = 50 ∧
    getRedistributedWeights intent = BASE_WEIGHTS ∧
    weightsSum BASE_WEIGHTS = 1 ∧
    scoreLocation property intent = 50 ∧
    scoreBudget property intent = 50 ∧
    scoreStyle property intent = 50 ∧
    scoreFeatures property intent = 50 ∧
    scoreBedsBaths property intent = 50 ∧
    scoreSqft property intent = 50 := by
  refine ⟨computeMatchScore_all_empty property intent hloc hbmin hbmax hsty hfeat
      hbdmin hbdmax hbamin hbamax hsqmin hsqmax,
    getRedistributedWeights_empty intent
      (getSpecifiedFactors_empty intent hloc hbmin hbmax hsty hfeat
        hbdmin hbdmax hbamin hbamax hsqmin hsqmax),
    by simp [weightsSum, BASE_WEIGHTS]; norm_num,
    scoreLocation_no_pref property intent hloc,
    scoreBudget_no_budget property intent hbmin hbmax,
    scoreStyle_no_pref property intent hsty,
    scoreFeatures_no_pref property intent hfeat,
    scoreBedsBaths_no_pref property intent hbdmin hbdmax hbamin hbamax,
    scoreSqft_no_pref property intent hsqmin hsqmax⟩

/-- Witness for C4 at a concrete property and the all-empty intent. -/
theorem C4_empty_intent_scores_fifty_witness :
    (computeMatchScore sampleProperty emptyIntent).score = 50 ∧
    getRedistributedWeights emptyIntent = BASE_WEIGHTS := by
  have h := C4_empty_intent_scores_fifty sampleProperty emptyIntent
    rfl rfl rfl rfl rfl rfl rfl rfl rfl rfl rfl
  exact ⟨h.1, h.2.1⟩

/-! ## Claim C3 -/

lemma sum_filter_map_base (s : Factor → Bool) (l : List Factor) :
    ((l.filter s).map BASE_WEIGHTS).sum =
    (l.map (fun f => if s f then BASE_WEIGHTS f else 0)).sum := by
  induction l with
  | nil => simp
  | cons a t ih => cases ha : s a <;> simp [List.filter_cons, ha, ih]

lemma specifiedKeys_ne_nil (intent : ParsedIntent) (f : Factor)
    (hf : getSpecifiedFactors intent f = true) :
    (specifiedKeys intent).isEmpty = false := by
  have hmem : f ∈ specifiedKeys intent := by
    apply List.mem_filter.mpr
    exact ⟨by cases f <;> simp [allFactors], hf⟩
  rcases hk : specifiedKeys intent with _ | ⟨a, t⟩
  · rw [hk] at hmem; simp at hmem
  · rfl

lemma totalSpecifiedWeight_expand (intent : ParsedIntent) :
    totalSpecifiedWeight intent =
    (if getSpecifiedFactors intent Factor.location then BASE_WEIGHTS Factor.location else 0) +
    (if getSpecifiedFactors intent Factor.budget then BASE_WEIGHTS Factor.budget else 0) +
    (if getSpecifiedFactors intent Factor.style then BASE_WEIGHTS Factor.style else 0) +
    (if getSpecifiedFactors intent Factor.features then BASE_WEIGHTS Factor.features else 0) +
    (if getSpecifiedFactors intent Factor.bedsBaths then BASE_WEIGHTS Factor.bedsBaths else 0) +
    (if getSpecifiedFactors intent Factor.sqft then BASE_WEIGHTS Factor.sqft else 0) := by
  rw [totalSpecifiedWeight, specifiedKeys, sum_filter_map_base]
  simp [allFactors]
  ring

lemma totalSpecifiedWeight_pos (intent : ParsedIntent) (f : Factor)
    (hf : getSpecifiedFactors intent f = true) :
    0 < totalSpecifiedWeight intent := by
  have hterm : ∀ g, (0 : ℚ) ≤ if getSpecifiedFactors intent g then BASE_WEIGHTS g else 0 := by
    intro g; split_ifs with h
    · cases g <;> norm_num [BASE_WEIGHTS]
    · exact le_refl 0
  rw [totalSpecifiedWeight_expand]
  have h1 := hterm Factor.location
  have h2 := hterm Factor.budget
  have h3 := hterm Factor.style
  have h4 := hterm Factor.features
  have h5 := hterm Factor.bedsBaths
  have h6 := hterm Factor.sqft
  cases f <;> simp only [hf, if_true] <;> simp only [BASE_WEIGHTS] at * <;>
    linarith [h1, h2, h3, h4, h5, h6]

/-- C3: with at least one specified factor, redistribution zeroes unspecified
factors, rescales each specified factor by the specified base-weight total,
sums to 1, and gives a budget-only intent full weight 1 on Budget. -/
theorem C3_weight_redistribution (intent : ParsedIntent)
    (h : ∃ f, getSpecifiedFactors intent f = true) :
    (∀ f, getSpecifiedFactors intent f = false → getRedistributedWeights intent f = 0) ∧
    (∀ f, getSpecifiedFactors intent f = true →
      getRedistributedWeights intent f = BASE_WEIGHTS f / totalSpecifiedWeight intent) ∧
    weightsSum (getRedistributedWeights intent) = 1 ∧
    (getSpecifiedFactors intent Factor.budget = true →
      (∀ f, f ≠ Factor.budget → getSpecifiedFactors intent f = false) →
      getRedistributedWeights intent Factor.budget = 1) := by
  obtain ⟨f0, hf0⟩ := h
  have hne := specifiedKeys_ne_nil intent f0 hf0
  have hTpos := totalSpecifiedWeight_pos intent f0 hf0
  have hw : getRedistributedWeights intent = fun key =>
      if getSpecifiedFactors intent key then
        BASE_WEIGHTS key / totalSpecifiedWeight intent
      else 0 := by
    simp [getRedistributedWeights, hne]
  have div_if : ∀ (c : Bool) (a T : ℚ),
      (if c = true then a / T else 0) = (if c = true then a else 0) / T := by
    intro c a T; cases c <;> simp
  refine ⟨?_, ?_, ?_, ?_⟩
  · intro f hf; rw [hw]; simp [hf]
  · intro f hf; rw [hw]; simp [hf]
  · rw [hw]
    simp only [weightsSum, div_if]
    rw [div_add_div_same, div_add_div_same, div_add_div_same, div_add_div_same,
      div_add_div_same, ← totalSpecifiedWeight_expand]
    exact div_self (ne_of_gt hTpos)
  · intro hb hothers
    have hT : totalSpecifiedWeight intent = BASE_WEIGHTS Factor.budget := by
      rw [totalSpecifiedWeight_expand]
      rw [hothers Factor.location (by decide), hothers Factor.style (by decide),
        hothers Factor.features (by decide), hothers Factor.bedsBaths (by decide),
        hothers Factor.sqft (by decide), hb]
      norm_num
    rw [hw]
    simp only [hb, if_true, hT]
    rw [div_self (by norm_num [BASE_WEIGHTS])]

/-- An intent whose only preference is a budget maximum. -/
def budgetOnlyIntent : ParsedIntent :=
  { emptyIntent with budget := ⟨none, some 1000000⟩ }

/-- Witness for C3: for the budget-only intent, the weights sum to 1,
the Budget weight is exactly 1, and an unspecified factor weighs 0. -/
theorem C3_weight_redistribution_witness :
    weightsSum (getRedistributedWeights budgetOnlyIntent) = 1 ∧
    getRedistributedWeights budgetOnlyIntent Factor.budget = 1 ∧
    getRedistributedWeights budgetOnlyIntent Factor.location = 0 := by
  have h := C3_weight_redistribution budgetOnlyIntent ⟨Factor.budget, rfl⟩
  exact ⟨h.2.2.1, h.2.2.2 rfl (by decide), h.1 Factor.location rfl⟩

/-! ## Claim C1 -/

/-- A property whose sqft is half of the intent minimum below. -/
def halfMinProperty : Property := { sampleProperty with sqft := 500 }

/-- An intent demanding at least 1000 sqft. -/
def sqftMinIntent : ParsedIntent := { emptyIntent with sqft := ⟨some 1000, none⟩ }

/-- A property whose sqft is double the intent maximum below. -/
def doubleMaxProperty : Property := { sampleProperty with sqft := 2000 }

/-- An intent demanding at most 1000 sqft. -/
def sqftMaxIntent : ParsedIntent := { emptyIntent with sqft := ⟨none, some 1000⟩ }

/-- Counterexample to C1: a property whose sqft (500) is half the specified
minimum (1000) receives the Sqft sub-score 50, not 0 — on the minimum side
the deviation ratio is measured against the minimum, so it is 1/2 here. -/
theorem C1_half_min_counterexample :
    sqftMinIntent.sqft.min = some 1000 ∧
    halfMinProperty.sqft = 500 ∧
    scoreSqft halfMinProperty sqftMinIntent = 50 ∧
    scoreSqft halfMinProperty sqftMinIntent ≠ 0 := by
  have h : scoreSqft halfMinProperty sqftMinIntent = 50 := by
    norm_num [scoreSqft, halfMinProperty, sqftMinIntent, sampleProperty,
      emptyIntent, max_def]
  exact ⟨rfl, rfl, h, by rw [h]; norm_num⟩

/-- C1 amended: with known nonzero sqft, above a specified maximum the Sqft
sub-score is `max 0 (100 * (1 - (sqft - max) / max))` — zero exactly from
sqft = 2 * max on; below a specified minimum it is
`max 0 (100 * (1 - (min - sqft) / min))`, which at sqft = min / 2 is 50
(the score reaches 0 only as sqft approaches 0). -/
theorem C1_sqft_decay_amended (property : Property) (intent : ParsedIntent) :
    (∀ M, intent.sqft.max = some M → 0 < M → property.sqft ≠ 0 →
      M < property.sqft →
      (∀ m, intent.sqft.min = some m → m ≤ property.sqft) →
      scoreSqft property intent =
        max 0 (100 * (1 - (property.sqft - M) / M)) ∧
      (property.sqft = 2 * M → scoreSqft property intent = 0)) ∧
    (∀ m, intent.sqft.min = some m → 0 < m → property.sqft ≠ 0 →
      property.sqft < m →
      scoreSqft property intent =
        max 0 (100 * (1 - (m - property.sqft) / m)) ∧
      (property.sqft = m / 2 → scoreSqft property intent = 50)) := by
  constructor
  · intro M hM hMpos hsq hlt hminle
    have hmain : scoreSqft property intent =
        max 0 (100 * (1 - (property.sqft - M) / M)) := by
      rcases hmin : intent.sqft.min with _ | m
      · simp [scoreSqft, hM, hmin, hsq, hlt, not_le.mpr hlt]
      · have hle := hminle m hmin
        simp [scoreSqft, hM, hmin, hsq, hlt, not_le.mpr hlt, not_lt.mpr hle]
    refine ⟨hmain, fun h2 => ?_⟩
    rw [hmain, h2]
    have : (2 * M - M) / M = 1 := by field_simp; ring
    rw [this]
    norm_num
  · intro m hm hmpos hsq hlt
    have hmain : scoreSqft property intent =
        max 0 (100 * (1 - (m - property.sqft) / m)) := by
      rcases hmax : intent.sqft.max with _ | mx
      · simp [scoreSqft, hm, hmax, hsq, hlt]
      · simp [scoreSqft, hm, hmax, hsq, hlt, not_le.mpr hlt]
    refine ⟨hmain, fun h2 => ?_⟩
    rw [hmain, h2]
    have : (m - m / 2) / m = 1 / 2 := by field_simp; ring
    rw [this]
    norm_num

/-- Witness for the amended C1: double the maximum scores 0; half the minimum
scores 50. -/
theorem C1_sqft_decay_amended_witness :
    scoreSqft doubleMaxProperty sqftMaxIntent = 0 ∧
    scoreSqft halfMinProperty sqftMinIntent = 50 := by
  constructor
  · exact ((C1_sqft_decay_amended doubleMaxProperty sqftMaxIntent).1 1000 rfl
      (by norm_num) (by norm_num [doubleMaxProperty, sampleProperty])
      (by norm_num [doubleMaxProperty, sampleProperty])
      (by intro m h; simp [sqftMaxIntent, emptyIntent] at h)).2
      (by norm_num [doubleMaxProperty, sampleProperty])
  · exact ((C1_sqft_decay_amended halfMinProperty sqftMinIntent).2 1000 rfl
      (by norm_num) (by norm_num [halfMinProperty, sampleProperty])
      (by norm_num [halfMinProperty, sampleProperty])).2
      (by norm_num [halfMinProperty, sampleProperty])

/-! ## Claim C10 -/

/-- C10: a numeric zero is treated the same as an absent value — zero or null
prices give the neutral Budget sub-score 50 even when a budget is specified,
and zero sqft gives the neutral Sqft sub-score 50 when a sqft range is
specified. -/
theorem C10_zero_treated_as_missing :
    (∀ (property : Property) (intent : ParsedIntent),
      (intent.budget.min ≠ none ∨ intent.budget.max ≠ none) →
      (property.listingPrice = none ∨ property.listingPrice = some 0) →
      (property.estimatedValue = none ∨ property.estimatedValue = some 0) →
      scoreBudget property intent = 50) ∧
    (∀ (property : Property) (intent : ParsedIntent),
      (intent.sqft.min ≠ none ∨ intent.sqft.max ≠ none) →
      property.sqft = 0 →
      scoreSqft property intent = 50) := by
  constructor
  · intro p i _ h1 h2
    exact scoreBudget_no_price p i h1 h2
  · intro p i hs h
    apply scoreSqft_unknown p i h
    rcases hs with hs | hs <;> tauto

/-- A property with a zero listing price, no estimated value and zero sqft. -/
def zeroDataProperty : Property :=
  { sampleProperty with listingPrice := some 0, estimatedValue := none, sqft := 0 }

/-- An intent with a budget maximum and a sqft minimum. -/
def budgetSqftIntent : ParsedIntent :=
  { emptyIntent with budget := ⟨none, some 1000000⟩, sqft := ⟨some 1000, none⟩ }

/-- Witness for C10 at a zero-priced, zero-sqft property. -/
theorem C10_zero_treated_as_missing_witness :
    scoreBudget zeroDataProperty budgetSqftIntent = 50 ∧
    scoreSqft zeroDataProperty budgetSqftIntent = 50 := by
  constructor
  · exact C10_zero_treated_as_missing.1 zeroDataProperty budgetSqftIntent
      (Or.inr (by simp [budgetSqftIntent, emptyIntent])) (Or.inr rfl) (Or.inl rfl)
  · exact C10_zero_treated_as_missing.2 zeroDataProperty budgetSqftIntent
      (Or.inl (by simp [budgetSqftIntent, emptyIntent])) rfl

/-! ## Claim C8 -/

/-- C8: a property with all optional pricing/style/sqft data missing is scored
with the explicit neutral fallbacks by every affected sub-scorer (50, or 25
for unknown style when styles are desired), for every intent, and
`computeMatchScore` still returns a full six-factor result. -/
theorem C8_missing_fields_neutral (property : Property) (intent : ParsedIntent)
    (hlp : property.listingPrice = none) (hev : property.estimatedValue = none)
    (hst : property.architecturalStyle = none) (hsq : property.sqft = 0) :
    scoreBudget property intent = 50 ∧
    scoreSqft property intent = 50 ∧
    scoreStyle property intent = (if intent.styles.isEmpty then 50 else 25) ∧
    (computeMatchScore property intent).factors.length = 6 := by
  refine ⟨scoreBudget_no_price property intent (Or.inl hlp) (Or.inl hev), ?_, ?_, ?_⟩
  · by_cases h : intent.sqft.min = none ∧ intent.sqft.max = none
    · exact scoreSqft_no_pref property intent h.1 h.2
    · exact scoreSqft_unknown property intent hsq h
  · simp [scoreStyle, hst]
  · simp [computeMatchScore]

/-- A property with listing price, estimated value, style and sqft all
missing. -/
def unknownProperty : Property :=
  { sampleProperty with
    listingPrice := none
    estimatedValue := none
    architecturalStyle := none
    sqft := 0 }

/-- An intent that desires a style and specifies budget and sqft bounds. -/
def styleIntent : ParsedIntent :=
  { emptyIntent with
    styles := ["modern"]
    budget := ⟨none, some 1000000⟩
    sqft := ⟨some 1000, none⟩ }

/-- Witness for C8 at a property with missing optional data. -/
theorem C8_missing_fields_neutral_witness :
    scoreBudget unknownProperty styleIntent = 50 ∧
    scoreSqft unknownProperty styleIntent = 50 ∧
    scoreStyle unknownProperty styleIntent = 25 := by
  have h := C8_missing_fields_neutral unknownProperty styleIntent rfl rfl rfl rfl
  refine ⟨h.1, h.2.1, ?_⟩
  have h3 := h.2.2.1
  simpa [styleIntent, emptyIntent] using h3

/-! ## Claim C9 -/

/-- C9: `styleSimilarity` is symmetric — the adjacency table is consulted in
both directions — and always returns one of 1, 0.5 and 0. -/
theorem C9_styleSimilarity_symm (a b : String) :
    styleSimilarity a b = styleSimilarity b a ∧
    (styleSimilarity a b = 1 ∨ styleSimilarity a b = 0.5 ∨
      styleSimilarity a b = 0) := by
  constructor
  · simp only [styleSimilarity]
    split_ifs <;> simp_all
  · simp only [styleSimilarity]
    split_ifs <;> simp

/-! ## Claims C6 and C7: transact score normal form -/

/-- Ownership-duration points of `computeTransactScore`. -/
def transactOwnershipPoints (property : Property) : ℚ :=
  match property.ownershipYears with
  | some years => if 10 < years then 20 + (if 15 < years then (10 : ℚ) else 0) else 0
  | none => 0

/-- Absentee-owner points of `computeTransactScore`. -/
def transactAbsenteePoints (property : Property) : ℚ :=
  if property.absenteeOwner then 15 else 0

/-- High-equity points of `computeTransactScore`. -/
def transactEquityPoints (property : Property) : ℚ :=
  match property.equityEstimate with
  | some equity => if 50 < equity then 10 else 0
  | none => 0

/-- Tax-delinquency points of `computeTransactScore`. -/
def transactTaxPoints (property : Property) : ℚ :=
  if property.taxStatus = TaxStatus.delinquent then 15 else 0

/-- Market-heat points of `computeTransactScore`. -/
def transactHeatPoints (recentNearbySales : Bool) : ℚ :=
  if recentNearbySales then 5 else 0

/-- Deferred-maintenance points of `computeTransactScore`. -/
def transactAgePoints (currentYear : ℤ) (property : Property) : ℚ :=
  let homeAge : Option ℤ :=
    match property.yearBuilt with
    | some yb => if yb = 0 then none else some (currentYear - yb)
    | none => none
  let hasRecentPermits :=
    property.permitHistory.any (fun permit => currentYear - permit.dateYear ≤ 5)
  match homeAge with
  | some age => if ¬hasRecentPermits ∧ 30 < age then 10 else 0
  | none => 0

/-- Off-market points of `computeTransactScore`. -/
def transactMarketPoints (property : Property) : ℚ :=
  if property.listingStatus = ListingStatus.off_market then 5 else 0

/-- Lift a conditional accumulator step into an added contribution. -/
lemma if_add_shift (c : Prop) [Decidable c] (s k : ℚ) :
    (if c then s + k else s) = s + (if c then k else 0) := by
  split_ifs <;> ring

/-- Lift a two-summand conditional accumulator step into an added
contribution. -/
lemma if_add_shift2 (c : Prop) [Decidable c] (s a b : ℚ) :
    (if c then s + a + b else s) = s + (if c then a + b else 0) := by
  split_ifs <;> ring

/-- The transact score is the capped sum of the seven point contributions. -/
lemma computeTransactScore_score_eq (currentYear : ℤ) (property : Property)
    (recentNearbySales : Bool) :
    (computeTransactScore currentYear property recentNearbySales).score =
    min 100 (transactOwnershipPoints property + transactAbsenteePoints property +
      transactEquityPoints property + transactTaxPoints property +
      transactHeatPoints recentNearbySales + transactAgePoints currentYear property +
      transactMarketPoints property) := by
  simp only [computeTransactScore, transactOwnershipPoints, transactAbsenteePoints,
    transactEquityPoints, transactTaxPoints, transactHeatPoints, transactAgePoints,
    transactMarketPoints]
  rcases property.ownershipYears with _ | y <;>
    rcases property.equityEstimate with _ | e <;>
    rcases property.yearBuilt with _ | yb <;>
    dsimp only <;>
    simp only [if_add_shift2, if_add_shift]
  all_goals try (congr 1 <;> ring_nf)
  all_goals (split <;> simp_all [if_add_shift2, if_add_shift])

/-- C6: the transact score never exceeds 100, and enabling any one additional
qualifying signal — absentee owner, tax delinquency, off-market status, the
recent-nearby-sales flag, longer ownership, higher equity — never lowers it. -/
theorem C6_transact_monotone (currentYear : ℤ) (property : Property)
    (recentNearbySales : Bool) :
    (computeTransactScore currentYear property recentNearbySales).score ≤ 100 ∧
    (computeTransactScore currentYear property recentNearbySales).score ≤
      (computeTransactScore currentYear
        { property with absenteeOwner := true } recentNearbySales).score ∧
    (computeTransactScore currentYear property recentNearbySales).score ≤
      (computeTransactScore currentYear
        { property with taxStatus := TaxStatus.delinquent } recentNearbySales).score ∧
    (computeTransactScore currentYear property recentNearbySales).score ≤
      (computeTransactScore currentYear
        { property with listingStatus := ListingStatus.off_market } recentNearbySales).score ∧
    (computeTransactScore currentYear property false).score ≤
      (computeTransactScore currentYear property true).score ∧
    (∀ y y', y ≤ y' →
      (computeTransactScore currentYear
        { property with ownershipYears := some y } recentNearbySales).score ≤
      (computeTransactScore currentYear
        { property with ownershipYears := some y' } recentNearbySales).score) ∧
    (∀ y, (computeTransactScore currentYear
        { property with ownershipYears := none } recentNearbySales).score ≤
      (computeTransactScore currentYear
        { property with ownershipYears := some y } recentNearbySales).score) ∧
    (∀ e e', e ≤ e' →
      (computeTransactScore currentYear
        { property with equityEstimate := some e } recentNearbySales).score ≤
      (computeTransactScore currentYear
        { property with equityEstimate := some e' } recentNearbySales).score) ∧
    (∀ e, (computeTransactScore currentYear
        { property with equityEstimate := none } recentNearbySales).score ≤
      (computeTransactScore currentYear
        { property with equityEstimate := some e } recentNearbySales).score) := by
  refine ⟨?_, ?_, ?_, ?_, ?_, ?_, ?_, ?_, ?_⟩
  · rw [computeTransactScore_score_eq]
    exact min_le_left _ _
  · rw [computeTransactScore_score_eq, computeTransactScore_score_eq]
    apply min_le_min le_rfl
    dsimp only [transactOwnershipPoints, transactAbsenteePoints, transactEquityPoints,
      transactTaxPoints, transactHeatPoints, transactAgePoints, transactMarketPoints]
    gcongr
    split_ifs <;> first | (norm_num; done) | (simp_all; done)
  · rw [computeTransactScore_score_eq, computeTransactScore_score_eq]
    apply min_le_min le_rfl
    dsimp only [transactOwnershipPoints, transactAbsenteePoints, transactEquityPoints,
      transactTaxPoints, transactHeatPoints, transactAgePoints, transactMarketPoints]
    gcongr
    split_ifs <;> first | (norm_num; done) | (simp_all; done)
  · rw [computeTransactScore_score_eq, computeTransactScore_score_eq]
    apply min_le_min le_rfl
    dsimp only [transactOwnershipPoints, transactAbsenteePoints, transactEquityPoints,
      transactTaxPoints, transactHeatPoints, transactAgePoints, transactMarketPoints]
    gcongr
    split_ifs <;> first | (norm_num; done) | (simp_all; done)
  · rw [computeTransactScore_score_eq, computeTransactScore_score_eq]
    apply min_le_min le_rfl
    dsimp only [transactOwnershipPoints, transactAbsenteePoints, transactEquityPoints,
      transactTaxPoints, transactHeatPoints, transactAgePoints, transactMarketPoints]
    gcongr
    split_ifs <;> first | (norm_num; done) | (simp_all; done)
  · intro y y' hy
    rw [computeTransactScore_score_eq, computeTransactScore_score_eq]
    apply min_le_min le_rfl
    dsimp only [transactOwnershipPoints, transactAbsenteePoints, transactEquityPoints,
      transactTaxPoints, transactHeatPoints, transactAgePoints, transactMarketPoints]
    gcongr
    split_ifs <;> linarith
  · intro y
    rw [computeTransactScore_score_eq, computeTransactScore_score_eq]
    apply min_le_min le_rfl
    dsimp only [transactOwnershipPoints, transactAbsenteePoints, transactEquityPoints,
      transactTaxPoints, transactHeatPoints, transactAgePoints, transactMarketPoints]
    gcongr
    split_ifs <;> first | (norm_num; done) | (simp_all; done)
  · intro e e' he
    rw [computeTransactScore_score_eq, computeTransactScore_score_eq]
    apply min_le_min le_rfl
    dsimp only [transactOwnershipPoints, transactAbsenteePoints, transactEquityPoints,
      transactTaxPoints, transactHeatPoints, transactAgePoints, transactMarketPoints]
    gcongr
    split_ifs <;> linarith
  · intro e
    rw [computeTransactScore_score_eq, computeTransactScore_score_eq]
    apply min_le_min le_rfl
    dsimp only [transactOwnershipPoints, transactAbsenteePoints, transactEquityPoints,
      transactTaxPoints, transactHeatPoints, transactAgePoints, transactMarketPoints]
    gcongr
    split_ifs <;> first | (norm_num; done) | (simp_all; done)

/-- Witness for C6 at a concrete property, concrete ownership years and
concrete equity values. -/
theorem C6_transact_monotone_witness :
    (computeTransactScore 2025 sampleProperty false).score ≤ 100 ∧
    (computeTransactScore 2025 sampleProperty false).score ≤
      (computeTransactScore 2025
        { sampleProperty with absenteeOwner := true } false).score ∧
    (computeTransactScore 2025
        { sampleProperty with ownershipYears := some 5 } false).score ≤
      (computeTransactScore 2025
        { sampleProperty with ownershipYears := some 20 } false).score ∧
    (computeTransactScore 2025
        { sampleProperty with equityEstimate := some 10 } false).score ≤
      (computeTransactScore 2025
        { sampleProperty with equityEstimate := some 60 } false).score := by
  have h := C6_transact_monotone 2025 sampleProperty false
  exact ⟨h.1, h.2.1, h.2.2.2.2.2.1 5 20 (by norm_num),
    h.2.2.2.2.2.2.2.1 10 60 (by norm_num)⟩

/-- The transact level is read off the capped score by the 61/31 cutoffs. -/
lemma computeTransactScore_level_eq (currentYear : ℤ) (property : Property)
    (recentNearbySales : Bool) :
    (computeTransactScore currentYear property recentNearbySales).level =
    (if 61 ≤ (computeTransactScore currentYear property recentNearbySales).score
      then TransactLevel.high
      else if 31 ≤ (computeTransactScore currentYear property recentNearbySales).score
        then TransactLevel.medium
        else TransactLevel.low) := rfl

/-- C7: the spec's worked example — ownership 20 years, absentee owner, tax
delinquent, 40-year-old home with no permits, and no other trigger — scores
20+10+15+15+10 = 70 and tiers as high (61-100). -/
theorem C7_transact_example (currentYear : ℤ) (property : Property)
    (hcy : 100 < currentYear)
    (hoy : property.ownershipYears = some 20)
    (habs : property.absenteeOwner = true)
    (htax : property.taxStatus = TaxStatus.delinquent)
    (hyb : property.yearBuilt = some (currentYear - 40))
    (hph : property.permitHistory = [])
    (heq : ∀ e, property.equityEstimate = some e → e ≤ 50)
    (hls : property.listingStatus ≠ ListingStatus.off_market) :
    (computeTransactScore currentYear property false).score = 70 ∧
    (computeTransactScore currentYear property false).level = TransactLevel.high := by
  have hown : transactOwnershipPoints property = 30 := by
    norm_num [transactOwnershipPoints, hoy]
  have habs2 : transactAbsenteePoints property = 15 := by
    simp [transactAbsenteePoints, habs]
  have heq2 : transactEquityPoints property = 0 := by
    rcases he : property.equityEstimate with _ | e
    · simp [transactEquityPoints, he]
    · have hle := heq e he
      simp [transactEquityPoints, he, not_lt.mpr hle]
  have htax2 : transactTaxPoints property = 15 := by
    simp [transactTaxPoints, htax]
  have hheat : transactHeatPoints false = 0 := rfl
  have hage : transactAgePoints currentYear property = 10 := by
    have h40 : currentYear - 40 ≠ 0 := by omega
    have h41 : currentYear - (currentYear - 40) = 40 := by ring
    simp [transactAgePoints, hyb, hph, h40, h41]
  have hmkt : transactMarketPoints property = 0 := by
    simp [transactMarketPoints, hls]
  have hscore : (computeTransactScore currentYear property false).score = 70 := by
    rw [computeTransactScore_score_eq, hown, habs2, heq2, htax2, hheat, hage, hmkt]
    norm_num
  refine ⟨hscore, ?_⟩
  rw [computeTransactScore_level_eq, hscore]
  norm_num

/-- The spec example property: long ownership, absentee, tax delinquent,
older home without permits, nothing else triggering. -/
def motivatedSellerProperty : Property :=
  { sampleProperty with
    ownershipYears := some 20
    absenteeOwner := true
    taxStatus := TaxStatus.delinquent
    yearBuilt := some 1985
    permitHistory := []
    equityEstimate := none
    listingStatus := ListingStatus.on_market }

/-- Witness for C7 at the concrete example property in year 2025. -/
theorem C7_transact_example_witness :
    (computeTransactScore 2025 motivatedSellerProperty false).score = 70 ∧
    (computeTransactScore 2025 motivatedSellerProperty false).level =
      TransactLevel.high := by
  exact C7_transact_example 2025 motivatedSellerProperty (by norm_num) rfl rfl rfl
    (by norm_num [motivatedSellerProperty, sampleProperty]) rfl
    (by intro e he; simp [motivatedSellerProperty, sampleProperty] at he)
    (by simp [motivatedSellerProperty, sampleProperty])

/-! ## Claim C5 -/

/-- C5: every returned search result has match score at least 25, the
returned sequence is non-increasing in the composite key
`0.7 * matchScore + 0.3 * transactNumeric`, and `transactToNumeric` maps
high to 100, medium to 50 and low to 20. -/
theorem C5_search_filter_and_order (currentYear : ℤ) (intent : ParsedIntent)
    (properties : List Property) (page : ℕ) :
    (∀ res ∈ (searchProperties currentYear intent properties page).results,
      (25 : ℝ) ≤ res.matchScore) ∧
    List.Pairwise (fun a b =>
      0.7 * b.matchScore + 0.3 * (transactToNumeric b.transactScore : ℝ) ≤
      0.7 * a.matchScore + 0.3 * (transactToNumeric a.transactScore : ℝ))
      (searchProperties currentYear intent properties page).results ∧
    transactToNumeric TransactLevel.high = 100 ∧
    transactToNumeric TransactLevel.medium = 50 ∧
    transactToNumeric TransactLevel.low = 20 := by
  refine ⟨?_, ?_, rfl, rfl, rfl⟩
  · intro res hres
    simp only [searchProperties] at hres
    have h1 : res ∈ List.insertionSort searchCmp
        (List.filter (fun r => decide (MIN_MATCH_SCORE ≤ r.matchScore))
          (properties.map (fun property =>
            { property := property
              matchScore := (computeMatchScore property intent).score
              transactScore :=
                (computeTransactScore currentYear property false).level }))) :=
      (List.drop_sublist _ _).subset ((List.take_sublist _ _).subset hres)
    have h2 := (List.mem_insertionSort searchCmp).mp h1
    have h3 := (List.mem_filter.mp h2).2
    have h4 := of_decide_eq_true h3
    simpa [MIN_MATCH_SCORE] using h4
  · have hs : List.Sorted searchCmp
        (List.insertionSort searchCmp
          (List.filter (fun r => decide (MIN_MATCH_SCORE ≤ r.matchScore))
            (properties.map (fun property =>
              { property := property
                matchScore := (computeMatchScore property intent).score
                transactScore :=
                  (computeTransactScore currentYear property false).level })))) :=
      List.sorted_insertionSort searchCmp _
    have hsub : List.Sublist
        (searchProperties currentYear intent properties page).results
        (List.insertionSort searchCmp
          (List.filter (fun r => decide (MIN_MATCH_SCORE ≤ r.matchScore))
            (properties.map (fun property =>
              { property := property
                matchScore := (computeMatchScore property intent).score
                transactScore :=
                  (computeTransactScore currentYear property false).level })))) := by
      simp only [searchProperties]
      exact (List.take_sublist _ _).trans (List.drop_sublist _ _)
    have hp : List.Pairwise searchCmp
        (searchProperties currentYear intent properties page).results :=
      List.Pairwise.sublist hsub hs
    simpa [searchCmp, sortKey] using hp

/-- The single scored result of searching `[sampleProperty]` with the empty
intent. -/
noncomputable def sampleSearchResult : SearchResult :=
  { property := sampleProperty
    matchScore := (computeMatchScore sampleProperty emptyIntent).score
    transactScore := (computeTransactScore 2025 sampleProperty false).level }

/-- Witness for C5: the concrete singleton search returns the sample result,
and the claim theorem yields its minimum-score bound at that input. -/
theorem C5_search_filter_and_order_witness :
    sampleSearchResult ∈
      (searchProperties 2025 emptyIntent [sampleProperty] 1).results ∧
    (25 : ℝ) ≤ sampleSearchResult.matchScore := by
  have hm : (computeMatchScore sampleProperty emptyIntent).score = 50 :=
    computeMatchScore_all_empty sampleProperty emptyIntent
      rfl rfl rfl rfl rfl rfl rfl rfl rfl rfl rfl
  have hkeep : decide (MIN_MATCH_SCORE ≤ sampleSearchResult.matchScore) = true := by
    apply decide_eq_true
    show MIN_MATCH_SCORE ≤ (computeMatchScore sampleProperty emptyIntent).score
    rw [hm]
    norm_num [MIN_MATCH_SCORE]
  have hkeep2 : decide
      (MIN_MATCH_SCORE ≤ (computeMatchScore sampleProperty emptyIntent).score) = true := by
    apply decide_eq_true
    rw [hm]
    norm_num [MIN_MATCH_SCORE]
  have hres : (searchProperties 2025 emptyIntent [sampleProperty] 1).results =
      [sampleSearchResult] := by
    simp only [searchProperties, List.map, List.filter_cons, List.filter_nil]
    dsimp only
    rw [hkeep2]
    simp [List.insertionSort, List.orderedInsert, sampleSearchResult, PAGE_SIZE]
  have hmem : sampleSearchResult ∈
      (searchProperties 2025 emptyIntent [sampleProperty] 1).results := by
    rw [hres]; exact List.mem_singleton.mpr rfl
  exact ⟨hmem,
    (C5_search_filter_and_order 2025 emptyIntent [sampleProperty] 1).1
      sampleSearchResult hmem⟩

/-! ## Claim C2 -/

lemma atan2_zero_one : atan2 0 1 = 0 := by
  norm_num [atan2]

lemma haversineDistance_self_zero : haversineDistance 0 0 0 0 = 0 := by
  norm_num [haversineDistance, toRadians, EARTH_RADIUS_MILES, Real.sin_zero,
    Real.cos_zero, Real.sqrt_zero, Real.sqrt_one, atan2_zero_one]

lemma haversineDistance_origin_pole : haversineDistance 0 0 90 0 = 1979.4 * Real.pi := by
  have e1 : ((90 : ℝ) - 0) * (Real.pi / 180) / 2 = Real.pi / 4 := by ring
  have e2 : ((0 : ℝ) - 0) * (Real.pi / 180) / 2 = 0 := by ring
  have e3 : (0 : ℝ) * (Real.pi / 180) = 0 := by ring
  have e4 : (90 : ℝ) * (Real.pi / 180) = Real.pi / 2 := by ring
  have e5 : Real.sqrt 2 / 2 * (Real.sqrt 2 / 2) = 1 / 2 := by
    rw [div_mul_div_comm, Real.mul_self_sqrt (by norm_num : (0 : ℝ) ≤ 2)]
    norm_num
  have hx : (0 : ℝ) < (Real.sqrt 2)⁻¹ := by positivity
  have e6 : atan2 (Real.sqrt 2)⁻¹ (Real.sqrt 2)⁻¹ = Real.pi / 4 := by
    rw [atan2, if_pos hx, div_self (ne_of_gt hx), Real.arctan_one]
  simp only [haversineDistance, toRadians, EARTH_RADIUS_MILES, e1, e2, e3, e4,
    Real.sin_pi_div_four, Real.sin_zero, Real.cos_zero, Real.cos_pi_div_two, e5]
  norm_num
  rw [e6]
  ring

/-- A property located at exactly (0, 0). -/
def originProperty : Property := { sampleProperty with lat := 0, lng := 0 }

/-- An intent targeting the point (0, 0) with a 2-mile radius. -/
def originIntent : ParsedIntent :=
  { emptyIntent with locations := [⟨"origin", 0, 0, 2⟩] }

/-- An intent targeting the north pole with a 2-mile radius. -/
def northPoleIntent : ParsedIntent :=
  { emptyIntent with locations := [⟨"north pole", 90, 0, 2⟩] }

/-- Counterexample to C2: `scoreLocation` has no (0,0) guard.  A property at
(0,0) is scored by its literal distance from (0,0): a target at (0,0) gets the
perfect location score 100, and a far-away target gets the full penalty 0
("outside all target locations") — the property is treated as really located
at (0,0), not as an unknown location excluded from location scoring. -/
theorem C2_location_counterexample :
    originProperty.lat = 0 ∧ originProperty.lng = 0 ∧
    scoreLocation originProperty originIntent = 100 ∧
    scoreLocation originProperty northPoleIntent = 0 := by
  refine ⟨rfl, rfl, ?_, ?_⟩
  · norm_num [scoreLocation, originIntent, emptyIntent, originProperty,
      sampleProperty, locTargetScore, haversineDistance_self_zero]
  · have h1 : ¬((9897 / 5 : ℝ) * Real.pi ≤ 1 / 10) := by nlinarith [Real.pi_gt_three]
    have h2 : ¬((9897 / 5 : ℝ) * Real.pi ≤ 2) := by nlinarith [Real.pi_gt_three]
    have h3 : ¬((9897 / 5 : ℝ) * Real.pi ≤ 2 * 2) := by nlinarith [Real.pi_gt_three]
    have h4 : ¬((9897 / 5 : ℝ) * Real.pi ≤ 4) := by nlinarith [Real.pi_gt_three]
    norm_num [scoreLocation, northPoleIntent, emptyIntent, originProperty,
      sampleProperty, locTargetScore, haversineDistance_origin_pole,
      h1, h2, h3, h4]

/-- C2 amended: the (0,0)-as-unknown-location exclusion is implemented at
ingestion, not in the scorer — every record surviving the
`ingestKingCountyProperties` filter has nonzero coordinates and a usable
address (while `scoreLocation` itself, shown above, scores a (0,0) property
by its literal distance from (0,0)). -/
theorem C2_ingestion_excludes_origin (transformed : List Property)
    (p : Property) (hp : p ∈ ingestionFilter transformed) :
    p.lat ≠ 0 ∧ p.lng ≠ 0 ∧ p.address ≠ "Unknown" := by
  have hdec := (List.mem_filter.mp hp).2
  have h := of_decide_eq_true hdec
  exact ⟨h.2.1, h.2.2, h.1⟩

/-- Witness for the amended C2: the sample property passes the ingestion
filter (the (0,0) record is dropped) and has nonzero coordinates. -/
theorem C2_ingestion_excludes_origin_witness :
    sampleProperty ∈ ingestionFilter [originProperty, sampleProperty] ∧
    sampleProperty.lat ≠ 0 ∧ sampleProperty.lng ≠ 0 := by
  have hc : decide (sampleProperty.address ≠ "Unknown" ∧
      sampleProperty.lat ≠ 0 ∧ sampleProperty.lng ≠ 0) = true := by
    apply decide_eq_true
    refine ⟨by decide, ?_, ?_⟩ <;> norm_num [sampleProperty]
  have hc0 : decide (originProperty.address ≠ "Unknown" ∧
      originProperty.lat ≠ 0 ∧ originProperty.lng ≠ 0) = false := by
    apply decide_eq_false
    intro h
    exact h.2.1 rfl
  have hmem : sampleProperty ∈ ingestionFilter [originProperty, sampleProperty] := by
    simp only [ingestionFilter, List.filter_cons, List.filter_nil]
    rw [hc, hc0]
    simp
  have h := C2_ingestion_excludes_origin [originProperty, sampleProperty]
    sampleProperty hmem
  exact ⟨hmem, h.1, h.2.1⟩
